import Mathlib

/-!
Shallow embedding of the SmartPlot design engine (FastAPI service).

Python floats are modelled as exact rationals (`ℚ`); `round(x, 2)` is
modelled as rounding `x * 100` to the nearest integer with ties to even
(CPython's rounding mode) and dividing back.  Python's `%` on a positive
divisor is modelled by `pyMod`.  Python strings are modelled as Lean
`String`s; `str.lower()` maps `Char.toLower` over the characters,
`needle in hay` is `pyIn`, and `s.startswith(p)` is `pyStartsWith`.
-/

namespace SmartPlot

/-- CPython `round` to an integer: nearest integer, ties to even. -/
def roundHalfEven (x : ℚ) : ℤ :=
  let f := ⌊x⌋
  let r := x - (f : ℚ)
  if r < 1/2 then f
  else if (1 : ℚ)/2 < r then f + 1
  else if f % 2 = 0 then f else f + 1

/-- Python `round(x, 2)`. -/
def round2 (x : ℚ) : ℚ := (roundHalfEven (x * 100) : ℚ) / 100

/-- Python `x % m` for a positive modulus `m` (result in `[0, m)`). -/
def pyMod (x m : ℚ) : ℚ := x - m * (⌊x / m⌋ : ℚ)

/-- Python `str.lower()` (ASCII case folding). -/
def pyLower (s : String) : String := ⟨s.data.map Char.toLower⟩

/-- Substring test on character lists: `needle` occurs somewhere in `hay`. -/
def pyInChars (needle : List Char) : List Char → Bool
  | [] => needle.isEmpty
  | c :: rest => needle.isPrefixOf (c :: rest) || pyInChars needle rest

/-- Python `needle in hay` for strings. -/
def pyIn (needle hay : String) : Bool := pyInChars needle.data hay.data

/-- Python `s.startswith(p)`. -/
def pyStartsWith (s p : String) : Bool := p.data.isPrefixOf s.data

/-- Python `s[0]` as a one-character string (total: empty on empty input). -/
def pyTake1 (s : String) : String := ⟨s.data.take 1⟩

example : round2 (83/10 * 9/10) = 747/100 := by norm_num [round2, roundHalfEven]
example : round2 6.075 = 6.08 := by norm_num [round2, roundHalfEven]
example : pyIn "ventilation" (pyLower "Cross-ventilation windows") = true := by decide
example : pyStartsWith (pyLower "North") (pyTake1 "south") = false := by decide

/-! ## Data model (src/src/models/schemas.py) -/

structure Coordinates where
  lat : ℚ
  lon : ℚ
deriving DecidableEq, Repr

structure LocationInput where
  address : String
  coordinates : Coordinates
deriving DecidableEq, Repr

structure PlotDimensions where
  length : ℚ
  width : ℚ
  unit : String
deriving DecidableEq, Repr

structure PlotInput where
  dimensions : PlotDimensions
  orientation : String
  road_facing : String
deriving DecidableEq, Repr

structure RequirementInput where
  bedrooms : ℕ
  bathrooms : ℕ
  kitchen : ℕ
  living_room : ℕ
  dining_room : ℕ
  budget : String
  style : String
  apply_vastu : Bool
deriving DecidableEq, Repr

structure AnalyzePlotRequest where
  location : LocationInput
  plot : PlotInput
  requirements : RequirementInput
deriving DecidableEq, Repr

structure DesignDecision where
  agent : String
  decision : String
  reasoning : String
  score : ℚ
deriving DecidableEq, Repr

structure ValidationReport where
  sunlight_score : ℚ
  ventilation_score : ℚ
  structural_score : ℚ
  energy_efficiency : String
  compliant : Bool
  issues : List String
deriving DecidableEq, Repr

/-! ## Environmental service (src/src/services/environmental.py)

The `collected_at` field is `datetime.now(UTC).isoformat()` in the source;
the current time is passed in as the explicit `now` argument.  The
defensive `except` wrapper around the body is unreachable for the pure
computation embedded here, so `fetch_environmental_profile` is total. -/

structure Geolocation where
  lat : ℚ
  lon : ℚ
  timezone : String
deriving DecidableEq, Repr

structure WeatherSummary where
  average_temp_c : ℚ
  humidity_pct : ℚ
deriving DecidableEq, Repr

structure SolarProfile where
  preferred_exposure : String
  annual_solar_index : ℚ
deriving DecidableEq, Repr

structure WindProfile where
  prevailing_direction : String
  avg_speed_mps : ℚ
deriving DecidableEq, Repr

structure EnvironmentalProfile where
  geolocation : Geolocation
  elevation_m : ℚ
  weather : WeatherSummary
  solar : SolarProfile
  wind : WindProfile
  rainfall_mm : ℚ
  collected_at : String
deriving DecidableEq, Repr

/-- `EnvironmentalService._timezone_from_longitude`:
`offset = int(round(lon / 15))`, formatted `f"UTC{offset:+d}:00"`. -/
def timezone_from_longitude (lon : ℚ) : String :=
  let offset := roundHalfEven (lon / 15)
  "UTC" ++ (if 0 ≤ offset then "+" else "-") ++ toString offset.natAbs ++ ":00"

/-- `EnvironmentalService._estimate_elevation`. -/
def estimate_elevation (lat lon : ℚ) : ℚ :=
  round2 (pyMod |lat * 12.5 + lon * 1.1| 900 + 30)

/-- `EnvironmentalService._weather_summary`; `mean` of the four seasonal
estimates is their sum divided by 4. -/
def weather_summary (lat : ℚ) : WeatherSummary :=
  { average_temp_c := round2 ((28 - |lat| * 0.1 + (24 - |lat| * 0.08) + 20 + 26) / 4),
    humidity_pct := round2 (60 + pyMod |lat| 20) }

/-- `EnvironmentalService._sunlight_profile`. -/
def sunlight_profile (lat : ℚ) : SolarProfile :=
  { preferred_exposure := if 0 ≤ lat then "south" else "north",
    annual_solar_index := round2 (6.5 - |lat| * 0.01) }

/-- `EnvironmentalService._wind_profile`. -/
def wind_profile (lat : ℚ) : WindProfile :=
  { prevailing_direction := if 0 ≤ lat then "SW" else "NW",
    avg_speed_mps := round2 (3.5 + pyMod |lat| 4) }

/-- `EnvironmentalService._rainfall_profile`. -/
def rainfall_profile (lat : ℚ) : ℚ := round2 (700 + |lat| * 15)

/-- `EnvironmentalService.fetch_environmental_profile`. -/
def fetch_environmental_profile (location : LocationInput) (now : String) :
    EnvironmentalProfile :=
  let lat := location.coordinates.lat
  let lon := location.coordinates.lon
  { geolocation := { lat := lat, lon := lon, timezone := timezone_from_longitude lon },
    elevation_m := estimate_elevation lat lon,
    weather := weather_summary lat,
    solar := sunlight_profile lat,
    wind := wind_profile lat,
    rainfall_mm := rainfall_profile lat,
    collected_at := now }

/-! ## Orchestrator (src/src/agents/orchestrator.py) -/

structure AgentResult where
  name : String
  decision : String
  reasoning : String
  score : ℚ
  weight : ℚ
deriving DecidableEq, Repr

/-- `ArchitectAgent.run`. -/
def architectRun (_p : AnalyzePlotRequest) (e : EnvironmentalProfile) : AgentResult :=
  { name := "architect",
    decision := "Primary living spaces aligned to " ++ e.solar.preferred_exposure,
    reasoning := "Optimized for natural daylight", score := 8.5, weight := 1 }

/-- `MeteorologistAgent.run`. -/
def meteorologistRun (_p : AnalyzePlotRequest) (e : EnvironmentalProfile) : AgentResult :=
  { name := "meteorologist",
    decision := "Cross-ventilation windows oriented towards " ++ e.wind.prevailing_direction,
    reasoning := "Uses prevailing wind data", score := 8.2, weight := 0.9 }

/-- `GeologistAgent.run`; the interpolated float is rendered by `toString`. -/
def geologistRun (_p : AnalyzePlotRequest) (e : EnvironmentalProfile) : AgentResult :=
  { name := "geologist",
    decision := "Foundation tuned for elevation " ++ toString e.elevation_m ++ "m",
    reasoning := "Reduced moisture and settlement risks", score := 8, weight := 0.95 }

/-- `StructuralEngineerAgent.run`. -/
def structuralEngineerRun (_p : AnalyzePlotRequest) (_e : EnvironmentalProfile) : AgentResult :=
  { name := "structural_engineer",
    decision := "Load-bearing walls increased to 230mm",
    reasoning := "Safety-first structure for regional conditions", score := 8.8, weight := 1 }

/-- `SiteEngineerAgent.run`. -/
def siteEngineerRun (p : AnalyzePlotRequest) (_e : EnvironmentalProfile) : AgentResult :=
  { name := "site_engineer",
    decision := "Road-facing side set to " ++ p.plot.road_facing,
    reasoning := "Supports practical site access", score := 7.8, weight := 0.85 }

/-- `VastuExpertAgent.run`. -/
def vastuExpertRun (p : AnalyzePlotRequest) (_e : EnvironmentalProfile) : AgentResult :=
  if !p.requirements.apply_vastu then
    { name := "vastu_expert", decision := "Vastu optional adjustments skipped",
      reasoning := "User disabled vastu preferences", score := 7, weight := 0.7 }
  else
    { name := "vastu_expert", decision := "Kitchen placed in south-east zone",
      reasoning := "Follows vastu guidance where practical", score := 7.6, weight := 0.7 }

/-- `InteriorDesignerAgent.run`. -/
def interiorDesignerRun (_p : AnalyzePlotRequest) (_e : EnvironmentalProfile) : AgentResult :=
  { name := "interior_designer",
    decision := "Circulation path minimized across common rooms",
    reasoning := "Improves comfort and usable space", score := 8.1, weight := 0.75 }

/-- `ConstructionBuilderAgent.run`. -/
def constructionBuilderRun (_p : AnalyzePlotRequest) (_e : EnvironmentalProfile) : AgentResult :=
  { name := "construction_builder",
    decision := "Material schedule generated with climate-adaptive specs",
    reasoning := "Construction-ready deliverable generated", score := 8.3, weight := 0.9 }

/-- The agents in `OrchestratorAgent.__init__` declaration order. -/
def agentRuns (p : AnalyzePlotRequest) (e : EnvironmentalProfile) : List AgentResult :=
  [architectRun p e, meteorologistRun p e, geologistRun p e, structuralEngineerRun p e,
   siteEngineerRun p e, vastuExpertRun p e, interiorDesignerRun p e, constructionBuilderRun p e]

/-- The sort key `item.score * item.weight` of `OrchestratorAgent.execute`. -/
def sortKey (r : AgentResult) : ℚ := r.score * r.weight

/-- Stable insertion for a descending sort: an element moves past exactly
those elements with a strictly smaller key, so equal keys keep their
original relative order — the behaviour of Python's stable
`sorted(..., reverse=True)`. -/
def insertDesc (x : AgentResult) : List AgentResult → List AgentResult
  | [] => [x]
  | y :: ys => if sortKey y ≤ sortKey x then x :: y :: ys else y :: insertDesc x ys

/-- Stable descending sort modelling `sorted(results, key=..., reverse=True)`. -/
def sortDesc : List AgentResult → List AgentResult
  | [] => []
  | x :: xs => insertDesc x (sortDesc xs)

/-- `OrchestratorAgent.execute`. -/
def execute (p : AnalyzePlotRequest) (e : EnvironmentalProfile) : List DesignDecision :=
  (sortDesc (agentRuns p e)).map fun r =>
    { agent := r.name, decision := r.decision, reasoning := r.reasoning,
      score := round2 (r.score * r.weight) }

/-- The pipeline output, written out: the eight specialists ranked by their
constant weighted scores.  Only the last (vastu) entry depends on the
request's `apply_vastu` flag. -/
def expectedDecisions (p : AnalyzePlotRequest) (e : EnvironmentalProfile) : List DesignDecision :=
  [{ agent := "structural_engineer", decision := "Load-bearing walls increased to 230mm",
     reasoning := "Safety-first structure for regional conditions", score := 8.8 },
   { agent := "architect", decision := "Primary living spaces aligned to " ++ e.solar.preferred_exposure,
     reasoning := "Optimized for natural daylight", score := 8.5 },
   { agent := "geologist", decision := "Foundation tuned for elevation " ++ toString e.elevation_m ++ "m",
     reasoning := "Reduced moisture and settlement risks", score := 7.6 },
   { agent := "construction_builder", decision := "Material schedule generated with climate-adaptive specs",
     reasoning := "Construction-ready deliverable generated", score := 7.47 },
   { agent := "meteorologist", decision := "Cross-ventilation windows oriented towards " ++ e.wind.prevailing_direction,
     reasoning := "Uses prevailing wind data", score := 7.38 },
   { agent := "site_engineer", decision := "Road-facing side set to " ++ p.plot.road_facing,
     reasoning := "Supports practical site access", score := 6.63 },
   { agent := "interior_designer", decision := "Circulation path minimized across common rooms",
     reasoning := "Improves comfort and usable space", score := 6.08 },
   if p.requirements.apply_vastu then
     { agent := "vastu_expert", decision := "Kitchen placed in south-east zone",
       reasoning := "Follows vastu guidance where practical", score := 5.32 }
   else
     { agent := "vastu_expert", decision := "Vastu optional adjustments skipped",
       reasoning := "User disabled vastu preferences", score := 4.9 }]

lemma round2_architect : round2 (8.5 * 1) = 8.5 := by norm_num [round2, roundHalfEven]

lemma round2_meteorologist : round2 (8.2 * 0.9) = 7.38 := by norm_num [round2, roundHalfEven]

lemma round2_geologist : round2 (8 * 0.95) = 7.6 := by norm_num [round2, roundHalfEven]

lemma round2_structural : round2 (8.8 * 1) = 8.8 := by norm_num [round2, roundHalfEven]

lemma round2_site : round2 (7.8 * 0.85) = 6.63 := by norm_num [round2, roundHalfEven]

lemma round2_vastu_on : round2 (7.6 * 0.7) = 5.32 := by norm_num [round2, roundHalfEven]

lemma round2_vastu_off : round2 (7 * 0.7) = 4.9 := by norm_num [round2, roundHalfEven]

lemma round2_interior : round2 (8.1 * 0.75) = 6.08 := by
  norm_num [round2, roundHalfEven, Int.fract]

lemma round2_builder : round2 (8.3 * 0.9) = 7.47 := by norm_num [round2, roundHalfEven]

theorem execute_eq (p : AnalyzePlotRequest) (e : EnvironmentalProfile) :
    execute p e = expectedDecisions p e := by
  cases h : p.requirements.apply_vastu <;>
    norm_num [execute, agentRuns, expectedDecisions, sortDesc, insertDesc, sortKey,
      architectRun, meteorologistRun, geologistRun, structuralEngineerRun,
      siteEngineerRun, vastuExpertRun, interiorDesignerRun, constructionBuilderRun,
      h] <;>
    norm_num [round2, roundHalfEven, Int.fract]

/-- The specialists' declared sequence order (`OrchestratorAgent.__init__`). -/
def specialistNames : List String :=
  ["architect", "meteorologist", "geologist", "structural_engineer", "site_engineer",
   "vastu_expert", "interior_designer", "construction_builder"]

/-- C1: for every request and environmental profile, `OrchestratorAgent.execute`
returns exactly 8 decisions, one per specialist name, sorted in non-increasing
order of final score, ties (none occur) keeping the declared sequence order. -/
theorem C1_pipeline_yields_eight_ranked_decisions
    (p : AnalyzePlotRequest) (e : EnvironmentalProfile) :
    (execute p e).length = 8 ∧
    ((execute p e).map DesignDecision.agent).Perm specialistNames ∧
    (execute p e).Pairwise (fun d d' => d'.score ≤ d.score ∧
      (d.score = d'.score →
        specialistNames.indexOf d.agent < specialistNames.indexOf d'.agent)) := by
  rw [execute_eq]
  cases h : p.requirements.apply_vastu <;>
    refine ⟨by simp [expectedDecisions, h], by simp [expectedDecisions, h]; decide, ?_⟩ <;>
    simp [expectedDecisions, h, List.pairwise_cons] <;> norm_num

/-- C4: every decision's final score is `round(raw_score * weight, 2)` for the
matching specialist's hardcoded constants, whose raw scores lie in [6.5, 8.8]
and weights in [0.7, 1.0]. -/
theorem C4_final_scores_from_hardcoded_constants
    (p : AnalyzePlotRequest) (e : EnvironmentalProfile) :
    ∀ d ∈ execute p e, ∃ r ∈ agentRuns p e,
      d.agent = r.name ∧ d.score = round2 (r.score * r.weight) ∧
      6.5 ≤ r.score ∧ r.score ≤ 8.8 ∧ 0.7 ≤ r.weight ∧ r.weight ≤ 1 := by
  rw [execute_eq]
  cases h : p.requirements.apply_vastu <;>
    intro d hd <;>
    simp only [expectedDecisions, h, if_true, if_false, Bool.false_eq_true,
      List.mem_cons, List.not_mem_nil, or_false] at hd <;>
    rcases hd with rfl | rfl | rfl | rfl | rfl | rfl | rfl | rfl <;>
    simp [agentRuns, architectRun, meteorologistRun, geologistRun, structuralEngineerRun,
      siteEngineerRun, vastuExpertRun, interiorDesignerRun, constructionBuilderRun, h] <;>
    norm_num [round2, roundHalfEven, Int.fract]

/-- The request with `requirements.apply_vastu` set to `false` and all other
fields identical. -/
def withVastuDisabled (p : AnalyzePlotRequest) : AnalyzePlotRequest :=
  { p with requirements := { p.requirements with apply_vastu := false } }

/-- C6: disabling vastu changes none of the seven non-vastu specialists'
entries (agent, decision, reasoning, score). -/
theorem C6_vastu_flag_only_affects_vastu_entry
    (p : AnalyzePlotRequest) (e : EnvironmentalProfile) :
    ((execute p e).filter fun d => d.agent ≠ "vastu_expert") =
      ((execute (withVastuDisabled p) e).filter fun d => d.agent ≠ "vastu_expert") := by
  rw [execute_eq, execute_eq]
  cases h : p.requirements.apply_vastu <;>
    simp [expectedDecisions, withVastuDisabled, h, List.filter]

/-! ## Scientific validator (src/src/validators/scientific.py) -/

/-- The `orientation_match` expression of `ScientificValidator.evaluate`:
`1.0 if request.plot.orientation.lower().startswith(preferred[0]) else 0.6`. -/
def orientationMatch (request : AnalyzePlotRequest) (preferred : String) : ℚ :=
  if pyStartsWith (pyLower request.plot.orientation) (pyTake1 preferred) then 1 else 0.6

/-- `ScientificValidator.evaluate`. -/
def evaluate (request : AnalyzePlotRequest) (env : EnvironmentalProfile)
    (decisions : List DesignDecision) : ValidationReport :=
  let om := orientationMatch request env.solar.preferred_exposure
  let ventilation_score : ℚ :=
    if decisions.any (fun d => pyIn "ventilation" (pyLower d.decision)) then 8.5 else 6
  let structural_score : ℚ :=
    if decisions.any (fun d => pyIn "load-bearing" (pyLower d.decision)) then 9 else 6.5
  let sunlight_score := round2 (8 * om)
  let avg := (sunlight_score + ventilation_score + structural_score) / 3
  { sunlight_score := sunlight_score,
    ventilation_score := ventilation_score,
    structural_score := structural_score,
    energy_efficiency := if 8 ≤ avg then "A" else "B",
    compliant := decide (7.5 ≤ avg),
    issues :=
      (if sunlight_score < 7 then ["Plot orientation is not optimal for local sun path"] else []) ++
      (if ventilation_score < 7 then ["Cross-ventilation recommendation missing"] else []) ++
      (if structural_score < 7 then ["Structural load validation recommendation missing"] else []) }

lemma pyInChars_nil_needle (hay : List Char) : pyInChars [] hay = true := by
  induction hay with
  | nil => rfl
  | cons c rest ih => simp [pyInChars, List.isPrefixOf]

lemma isPrefixOf_append_of_isPrefixOf (n l l' : List Char) (h : n.isPrefixOf l = true) :
    n.isPrefixOf (l ++ l') = true := by
  induction n generalizing l with
  | nil => simp [List.isPrefixOf]
  | cons a as ih =>
    cases l with
    | nil => simp [List.isPrefixOf] at h
    | cons b bs =>
      simp only [List.isPrefixOf, Bool.and_eq_true] at h
      simp only [List.cons_append, List.isPrefixOf, Bool.and_eq_true]
      exact ⟨h.1, ih bs h.2⟩

lemma pyInChars_append_left (n l₁ l₂ : List Char) (h : pyInChars n l₁ = true) :
    pyInChars n (l₁ ++ l₂) = true := by
  induction l₁ with
  | nil =>
    simp only [pyInChars, List.isEmpty_iff] at h
    subst h
    simpa using pyInChars_nil_needle l₂
  | cons c rest ih =>
    simp only [pyInChars, Bool.or_eq_true] at h
    rcases h with h | h
    · simp only [List.cons_append, pyInChars, Bool.or_eq_true]
      exact Or.inl (isPrefixOf_append_of_isPrefixOf n (c :: rest) l₂ h)
    · simp only [List.cons_append, pyInChars, Bool.or_eq_true]
      exact Or.inr (ih h)

/-- Finding a needle in the lowering of a literal prefix suffices for finding
it in the lowering of the full interpolated string. -/
lemma pyIn_pyLower_append (n s t : String) (h : pyIn n (pyLower s) = true) :
    pyIn n (pyLower (s ++ t)) = true := by
  have hdata : (s ++ t).data = s.data ++ t.data := String.data_append s t
  simp only [pyIn, pyLower, hdata, List.map_append] at h ⊢
  exact pyInChars_append_left _ _ _ h

lemma meteorologist_mem (p : AnalyzePlotRequest) (e : EnvironmentalProfile) :
    ({ agent := "meteorologist",
       decision := "Cross-ventilation windows oriented towards " ++ e.wind.prevailing_direction,
       reasoning := "Uses prevailing wind data", score := 7.38 } : DesignDecision) ∈
      execute p e := by
  rw [execute_eq]
  simp [expectedDecisions]

lemma structural_mem (p : AnalyzePlotRequest) (e : EnvironmentalProfile) :
    ({ agent := "structural_engineer", decision := "Load-bearing walls increased to 230mm",
       reasoning := "Safety-first structure for regional conditions", score := 8.8 } :
      DesignDecision) ∈ execute p e := by
  rw [execute_eq]
  simp [expectedDecisions]

/-- The meteorologist's decision text always contains "ventilation". -/
lemma ventilation_any (p : AnalyzePlotRequest) (e : EnvironmentalProfile) :
    ((execute p e).any fun d => pyIn "ventilation" (pyLower d.decision)) = true := by
  rw [List.any_eq_true]
  exact ⟨_, meteorologist_mem p e,
    pyIn_pyLower_append "ventilation" "Cross-ventilation windows oriented towards " _
      (by decide)⟩

/-- The structural engineer's decision text always contains "load-bearing". -/
lemma structural_any (p : AnalyzePlotRequest) (e : EnvironmentalProfile) :
    ((execute p e).any fun d => pyIn "load-bearing" (pyLower d.decision)) = true := by
  rw [List.any_eq_true]
  exact ⟨_, structural_mem p e, by decide⟩

/-- The validation report the pipeline produces for a request at a location:
deriver, orchestrator, then validator, as in `_run_pipeline`. -/
def pipelineReport (p : AnalyzePlotRequest) (loc : LocationInput) (now : String) :
    ValidationReport :=
  evaluate p (fetch_environmental_profile loc now)
    (execute p (fetch_environmental_profile loc now))

/-- C9: on any pipeline run the validator always scores ventilation 8.5 and
structure 9.0, never emits their diagnostics, and compliance and the energy
grade are determined solely by the orientation/solar first-letter match. -/
theorem C9_ventilation_structural_always_pass
    (p : AnalyzePlotRequest) (loc : LocationInput) (now : String) :
    (pipelineReport p loc now).ventilation_score = 8.5 ∧
    (pipelineReport p loc now).structural_score = 9 ∧
    "Cross-ventilation recommendation missing" ∉ (pipelineReport p loc now).issues ∧
    "Structural load validation recommendation missing" ∉ (pipelineReport p loc now).issues ∧
    (pipelineReport p loc now).compliant =
      pyStartsWith (pyLower p.plot.orientation)
        (pyTake1 (fetch_environmental_profile loc now).solar.preferred_exposure) ∧
    (pipelineReport p loc now).energy_efficiency =
      (if pyStartsWith (pyLower p.plot.orientation)
          (pyTake1 (fetch_environmental_profile loc now).solar.preferred_exposure)
        then "A" else "B") := by
  have hvent := ventilation_any p (fetch_environmental_profile loc now)
  have hstruct := structural_any p (fetch_environmental_profile loc now)
  cases hm : pyStartsWith (pyLower p.plot.orientation)
      (pyTake1 (fetch_environmental_profile loc now).solar.preferred_exposure) <;>
    refine ⟨?_, ?_, ?_, ?_, ?_, ?_⟩ <;>
    simp [pipelineReport, evaluate, orientationMatch, hm, hvent, hstruct,
      decide_eq_true_eq, decide_eq_false_iff_not] <;>
    norm_num [round2, roundHalfEven]

/-- The sample Bangalore request used throughout the repository's tests. -/
def bangaloreRequest : AnalyzePlotRequest :=
  { location := { address := "Bangalore", coordinates := { lat := 12.9716, lon := 77.5946 } },
    plot := { dimensions := { length := 30, width := 50, unit := "feet" },
              orientation := "north", road_facing := "east" },
    requirements := { bedrooms := 3, bathrooms := 2, kitchen := 1, living_room := 1,
                      dining_room := 1, budget := "mid-range", style := "modern",
                      apply_vastu := true } }

def bangaloreProfile : EnvironmentalProfile :=
  fetch_environmental_profile bangaloreRequest.location "2024-01-01T00:00:00+00:00"

def bangaloreReport : ValidationReport :=
  evaluate bangaloreRequest bangaloreProfile (execute bangaloreRequest bangaloreProfile)

theorem C4_witness :
    ∃ r ∈ agentRuns bangaloreRequest bangaloreProfile,
      ({ agent := "structural_engineer", decision := "Load-bearing walls increased to 230mm",
         reasoning := "Safety-first structure for regional conditions", score := 8.8 } :
        DesignDecision).agent = r.name ∧
      ({ agent := "structural_engineer", decision := "Load-bearing walls increased to 230mm",
         reasoning := "Safety-first structure for regional conditions", score := 8.8 } :
        DesignDecision).score = round2 (r.score * r.weight) ∧
      6.5 ≤ r.score ∧ r.score ≤ 8.8 ∧ 0.7 ≤ r.weight ∧ r.weight ≤ 1 :=
  C4_final_scores_from_hardcoded_constants bangaloreRequest bangaloreProfile _
    (structural_mem bangaloreRequest bangaloreProfile)

/-- C5: the concrete Bangalore scenario (lat 12.9716, lon 77.5946,
orientation "north"): preferred exposure south, orientation match 0.6,
sunlight 4.8, structure 9.0, ventilation 8.5, non-compliant, grade "B",
and only the sunlight-orientation diagnostic. -/
theorem C5_bangalore_concrete_scenario :
    bangaloreProfile.solar.preferred_exposure = "south" ∧
    orientationMatch bangaloreRequest bangaloreProfile.solar.preferred_exposure = 0.6 ∧
    bangaloreReport.sunlight_score = 4.8 ∧
    bangaloreReport.structural_score = 9 ∧
    bangaloreReport.ventilation_score = 8.5 ∧
    bangaloreReport.compliant = false ∧
    bangaloreReport.energy_efficiency = "B" ∧
    bangaloreReport.issues = ["Plot orientation is not optimal for local sun path"] := by
  have hpref : bangaloreProfile.solar.preferred_exposure = "south" := by
    norm_num [bangaloreProfile, bangaloreRequest, fetch_environmental_profile, sunlight_profile]
  have hm : pyStartsWith (pyLower bangaloreRequest.plot.orientation)
      (pyTake1 bangaloreProfile.solar.preferred_exposure) = false := by
    rw [hpref]
    decide
  have hvent := ventilation_any bangaloreRequest bangaloreProfile
  have hstruct := structural_any bangaloreRequest bangaloreProfile
  refine ⟨hpref, ?_, ?_, ?_, ?_, ?_, ?_, ?_⟩ <;>
    simp [bangaloreReport, evaluate, orientationMatch, hm, hvent, hstruct,
      decide_eq_true_eq, decide_eq_false_iff_not] <;>
    norm_num [round2, roundHalfEven]

/-- C3 counterexample: at lat = 0.2, lon = 0 the profile's
`weather.average_temp_c` is 24.49 (the code rounds the seasonal mean to two
decimals), while the claim's closed form — the unrounded mean — is 24.491. -/
theorem C3_counterexample_average_temp_rounded :
    (fetch_environmental_profile ⟨"spot", ⟨1/5, 0⟩⟩ "t").weather.average_temp_c ≠
      (28 - 0.1 * |(1/5 : ℚ)| + (24 - 0.08 * |(1/5 : ℚ)|) + 20 + 26) / 4 := by
  have habs : |(1/5 : ℚ)| = 1/5 := abs_of_nonneg (by norm_num)
  simp only [fetch_environmental_profile, weather_summary, habs]
  norm_num [round2, roundHalfEven, Int.fract]

/-- C3 (amended): `fetch_environmental_profile` is deterministic in
(lat, lon) — the address and timestamp affect nothing but `collected_at` —
and every field equals its closed form, with `round(·, 2)` applied to
`average_temp_c`, `annual_solar_index`, `avg_speed_mps` and `rainfall_mm`
(as the code does) in addition to the fields the claim already rounds. -/
theorem C3_amended_deterministic_closed_forms
    (a a' now now' : String) (c : Coordinates) :
    ((fetch_environmental_profile ⟨a, c⟩ now).geolocation =
        (fetch_environmental_profile ⟨a', c⟩ now').geolocation ∧
      (fetch_environmental_profile ⟨a, c⟩ now).elevation_m =
        (fetch_environmental_profile ⟨a', c⟩ now').elevation_m ∧
      (fetch_environmental_profile ⟨a, c⟩ now).weather =
        (fetch_environmental_profile ⟨a', c⟩ now').weather ∧
      (fetch_environmental_profile ⟨a, c⟩ now).solar =
        (fetch_environmental_profile ⟨a', c⟩ now').solar ∧
      (fetch_environmental_profile ⟨a, c⟩ now).wind =
        (fetch_environmental_profile ⟨a', c⟩ now').wind ∧
      (fetch_environmental_profile ⟨a, c⟩ now).rainfall_mm =
        (fetch_environmental_profile ⟨a', c⟩ now').rainfall_mm) ∧
    ((fetch_environmental_profile ⟨a, c⟩ now).geolocation.timezone =
        "UTC" ++ (if 0 ≤ roundHalfEven (c.lon / 15) then "+" else "-") ++
          toString (roundHalfEven (c.lon / 15)).natAbs ++ ":00" ∧
      (fetch_environmental_profile ⟨a, c⟩ now).elevation_m =
        round2 (pyMod |c.lat * 12.5 + c.lon * 1.1| 900 + 30) ∧
      (fetch_environmental_profile ⟨a, c⟩ now).weather.average_temp_c =
        round2 ((28 - 0.1 * |c.lat| + (24 - 0.08 * |c.lat|) + 20 + 26) / 4) ∧
      (fetch_environmental_profile ⟨a, c⟩ now).solar.preferred_exposure =
        (if 0 ≤ c.lat then "south" else "north") ∧
      (fetch_environmental_profile ⟨a, c⟩ now).solar.annual_solar_index =
        round2 (6.5 - 0.01 * |c.lat|) ∧
      (fetch_environmental_profile ⟨a, c⟩ now).wind.prevailing_direction =
        (if 0 ≤ c.lat then "SW" else "NW") ∧
      (fetch_environmental_profile ⟨a, c⟩ now).wind.avg_speed_mps =
        round2 (3.5 + pyMod |c.lat| 4) ∧
      (fetch_environmental_profile ⟨a, c⟩ now).rainfall_mm =
        round2 (700 + 15 * |c.lat|)) := by
  refine ⟨⟨rfl, rfl, rfl, rfl, rfl, rfl⟩, rfl, rfl, ?_, rfl, ?_, rfl, rfl, ?_⟩ <;>
    simp only [fetch_environmental_profile, weather_summary, sunlight_profile,
      wind_profile, rainfall_profile] <;>
    congr 1 <;> ring

/-! ## Output assembler (src/src/processors/design_generator.py)

`DesignProcessor.build_outputs` draws `design_id = uuid4()`; the generated
id is passed in as the explicit `design_id` argument, so the uuid source's
only guarantee — fresh ids are distinct across calls — can be stated. -/

structure Summary where
  total_area : String
  room_count : ℕ
  optimization_score : ℚ
  energy_efficiency : String
  vastu_compliance : ℕ
deriving DecidableEq, Repr

/-- The seven artifact path placeholders of `build_outputs`. -/
def buildFiles (design_id : String) : List (String × String) :=
  [("floor_plan_2d", "/artifacts/" ++ design_id ++ "/floor_plan.svg"),
   ("autocad_file", "/artifacts/" ++ design_id ++ "/floor_plan.dxf"),
   ("3d_model", "/artifacts/" ++ design_id ++ "/model.gltf"),
   ("documentation", "/artifacts/" ++ design_id ++ "/design_report.pdf"),
   ("sun_analysis", "/artifacts/" ++ design_id ++ "/sun_path.png"),
   ("ventilation_analysis", "/artifacts/" ++ design_id ++ "/ventilation.png"),
   ("material_specifications", "/artifacts/" ++ design_id ++ "/bom.json")]

/-- `DesignProcessor.build_outputs`. -/
def buildOutputs (request : AnalyzePlotRequest) (decisions : List DesignDecision)
    (validation_score : ℚ) (design_id : String) : List (String × String) × Summary :=
  let area := round2 (request.plot.dimensions.length * request.plot.dimensions.width)
  (buildFiles design_id,
   { total_area := toString area ++ " sq " ++ request.plot.dimensions.unit,
     room_count := request.requirements.bedrooms + request.requirements.bathrooms +
       request.requirements.kitchen + request.requirements.living_room +
       request.requirements.dining_room,
     optimization_score :=
       round2 (((decisions.map fun d => d.score).sum) / (max decisions.length 1 : ℕ)),
     energy_efficiency := if 8 ≤ validation_score then "A+" else "A",
     vastu_compliance := if request.requirements.apply_vastu then 92 else 0 })

/-- C7 counterexample: two calls of `build_outputs` on identical inputs draw
distinct fresh design ids (uuid4), and the files mappings then differ. -/
theorem C7_counterexample_files_not_deterministic :
    (buildOutputs bangaloreRequest [] 9 "00000000-0000-0000-0000-000000000000").1 ≠
      (buildOutputs bangaloreRequest [] 9 "00000000-0000-0000-0000-000000000001").1 := by
  decide

lemma artifact_path_inj (pre suf id id' : String)
    (h : pre ++ id ++ suf = pre ++ id' ++ suf) : id = id' := by
  have h1 := congrArg String.data h
  simp only [String.data_append] at h1
  apply String.ext
  exact List.append_cancel_left (List.append_cancel_right h1)

/-- C7 (amended): the summary mapping is deterministic in
(request, decisions, structural score) alone, and the files mapping is
deterministic given additionally the generated design id — two calls agree
on files exactly when they drew the same id. -/
theorem C7_amended_deterministic_given_design_id
    (request : AnalyzePlotRequest) (decisions : List DesignDecision)
    (validation_score : ℚ) (id id' : String) :
    (buildOutputs request decisions validation_score id).2 =
      (buildOutputs request decisions validation_score id').2 ∧
    ((buildOutputs request decisions validation_score id).1 =
        (buildOutputs request decisions validation_score id').1 ↔ id = id') := by
  refine ⟨rfl, ?_, fun h => by rw [h]⟩
  intro h
  simp only [buildOutputs, buildFiles, List.cons.injEq, Prod.mk.injEq, and_true] at h
  exact artifact_path_inj "/artifacts/" "/floor_plan.svg" id id' h.1.2

/-! ## Job store and API operations (src/api/main.py)

Job ids (`uuid4`) are modelled as naturals, timestamps (`datetime.now`) as
natural ticks supplied by the caller; the in-memory `_jobs` dict is an
association list with the store lock's atomic sections modelled as atomic
functions. -/

inductive JobStatus where
  | pending
  | running
  | completed
  | failed
deriving DecidableEq, Repr

structure DesignResult where
  design_id : String
  files : List (String × String)
  summary : Summary
  design_decisions : List DesignDecision
  validation : ValidationReport
deriving DecidableEq, Repr

structure JobRecord where
  job_id : ℕ
  status : JobStatus
  created_at : ℕ
  updated_at : ℕ
  request : AnalyzePlotRequest
  result : Option DesignResult
  error : Option String
deriving DecidableEq, Repr

structure HttpError where
  status_code : ℕ
  detail : String
deriving DecidableEq, Repr

def lookupJob : List (ℕ × JobRecord) → ℕ → Option JobRecord
  | [], _ => none
  | (k, j) :: rest, id => if k = id then some j else lookupJob rest id

def updateJob : List (ℕ × JobRecord) → ℕ → JobRecord → List (ℕ × JobRecord)
  | [], _, _ => []
  | (k, v) :: rest, id, j => (if k = id then (k, j) else (k, v)) :: updateJob rest id j

/-- `get_validation_report`: `if not job or not job.result: raise
HTTPException(404, "Validation report not found")`. -/
def get_validation_report (jobs : List (ℕ × JobRecord)) (job_id : ℕ) :
    Except HttpError ValidationReport :=
  match lookupJob jobs job_id with
  | none => Except.error ⟨404, "Validation report not found"⟩
  | some job =>
    match job.result with
    | none => Except.error ⟨404, "Validation report not found"⟩
    | some r => Except.ok r.validation

/-- The record mutation performed by `regenerate` under the store lock. -/
def resetForRegenerate (job : JobRecord) (reqs : RequirementInput) (now : ℕ) : JobRecord :=
  { job with request := { job.request with requirements := reqs },
             error := none, result := none, status := JobStatus.pending,
             updated_at := now }

/-- The `regenerate` endpoint's store transaction (the subsequent dispatch is
modelled separately in the engine transition system). -/
def regenerate (jobs : List (ℕ × JobRecord)) (job_id : ℕ) (reqs : RequirementInput)
    (now : ℕ) : Except HttpError (List (ℕ × JobRecord)) :=
  match lookupJob jobs job_id with
  | none => Except.error ⟨404, "Job not found"⟩
  | some existing => Except.ok (updateJob jobs job_id (resetForRegenerate existing reqs now))

/-- A stored job that is still pending: it exists but has no result yet. -/
def pendingJob : JobRecord :=
  { job_id := 7, status := JobStatus.pending, created_at := 0, updated_at := 0,
    request := bangaloreRequest, result := none, error := none }

/-- C8 counterexample: the unknown-job failure and the job-without-result
failure of `get_validation_report` are the identical `404 "Validation report
not found"` value — the caller cannot distinguish the two cases. -/
theorem C8_counterexample_failures_indistinguishable :
    get_validation_report [] 7 = get_validation_report [(7, pendingJob)] 7 ∧
    get_validation_report [] 7 =
      Except.error ⟨404, "Validation report not found"⟩ := by
  exact ⟨rfl, rfl⟩

/-- C8 (amended): `get_validation_report` returns the stored report when the
job exists and has a result, and otherwise fails with one and the same
`404 "Validation report not found"` error whether the job id is unknown or
the job merely has no result yet. -/
theorem C8_amended_single_not_found_failure (jobs : List (ℕ × JobRecord)) (job_id : ℕ) :
    get_validation_report jobs job_id =
      match (lookupJob jobs job_id).bind (fun j => j.result) with
      | none => Except.error ⟨404, "Validation report not found"⟩
      | some r => Except.ok r.validation := by
  cases h : lookupJob jobs job_id with
  | none => simp [get_validation_report, h]
  | some job =>
    cases hr : job.result with
    | none => simp [get_validation_report, h, hr]
    | some r => simp [get_validation_report, h, hr]

lemma lookupJob_updateJob (jobs : List (ℕ × JobRecord)) (id : ℕ) (j : JobRecord) :
    lookupJob (updateJob jobs id j) id = (lookupJob jobs id).map (fun _ => j) := by
  induction jobs with
  | nil => rfl
  | cons kv rest ih =>
    obtain ⟨k, v⟩ := kv
    by_cases hk : k = id
    · subst hk
      have h1 : updateJob ((k, v) :: rest) k j = (k, j) :: updateJob rest k j := by
        simp [updateJob]
      rw [h1]
      simp [lookupJob]
    · have h1 : updateJob ((k, v) :: rest) id j = (k, v) :: updateJob rest id j := by
        simp [updateJob, hk]
      rw [h1]
      simp only [lookupJob, if_neg hk]
      exact ih

/-- C10: `regenerate` succeeds on every stored job whatever its status,
replaces only the requirements of the request, resets status/result/error,
refreshes `updated_at`, and leaves id, `created_at`, location and plot
untouched. -/
theorem C10_regenerate_resets_and_preserves
    (jobs : List (ℕ × JobRecord)) (id : ℕ) (job : JobRecord)
    (reqs : RequirementInput) (now : ℕ) (h : lookupJob jobs id = some job) :
    regenerate jobs id reqs now =
      Except.ok (updateJob jobs id (resetForRegenerate job reqs now)) ∧
    lookupJob (updateJob jobs id (resetForRegenerate job reqs now)) id =
      some (resetForRegenerate job reqs now) ∧
    (resetForRegenerate job reqs now).status = JobStatus.pending ∧
    (resetForRegenerate job reqs now).result = none ∧
    (resetForRegenerate job reqs now).error = none ∧
    (resetForRegenerate job reqs now).updated_at = now ∧
    (resetForRegenerate job reqs now).job_id = job.job_id ∧
    (resetForRegenerate job reqs now).created_at = job.created_at ∧
    (resetForRegenerate job reqs now).request.location = job.request.location ∧
    (resetForRegenerate job reqs now).request.plot = job.request.plot ∧
    (resetForRegenerate job reqs now).request.requirements = reqs := by
  refine ⟨?_, ?_, rfl, rfl, rfl, rfl, rfl, rfl, rfl, rfl, rfl⟩
  · simp [regenerate, h]
  · simp [lookupJob_updateJob, h]

/-- A stored job caught mid-run: `regenerate` must also work on it. -/
def runningJob : JobRecord :=
  { job_id := 7, status := JobStatus.running, created_at := 0, updated_at := 1,
    request := bangaloreRequest, result := none, error := none }

def witnessJobs : List (ℕ × JobRecord) := [(7, runningJob)]

def newRequirements : RequirementInput :=
  { bedrooms := 2, bathrooms := 1, kitchen := 1, living_room := 1, dining_room := 1,
    budget := "premium", style := "contemporary", apply_vastu := false }

theorem C10_witness :
    regenerate witnessJobs 7 newRequirements 5 =
      Except.ok (updateJob witnessJobs 7 (resetForRegenerate runningJob newRequirements 5)) ∧
    lookupJob (updateJob witnessJobs 7 (resetForRegenerate runningJob newRequirements 5)) 7 =
      some (resetForRegenerate runningJob newRequirements 5) ∧
    (resetForRegenerate runningJob newRequirements 5).status = JobStatus.pending ∧
    (resetForRegenerate runningJob newRequirements 5).result = none ∧
    (resetForRegenerate runningJob newRequirements 5).error = none ∧
    (resetForRegenerate runningJob newRequirements 5).updated_at = 5 ∧
    (resetForRegenerate runningJob newRequirements 5).job_id = runningJob.job_id ∧
    (resetForRegenerate runningJob newRequirements 5).created_at = runningJob.created_at ∧
    (resetForRegenerate runningJob newRequirements 5).request.location =
      runningJob.request.location ∧
    (resetForRegenerate runningJob newRequirements 5).request.plot = runningJob.request.plot ∧
    (resetForRegenerate runningJob newRequirements 5).request.requirements =
      newRequirements :=
  C10_regenerate_resets_and_preserves witnessJobs 7 runningJob newRequirements 5 rfl

/-! ## Execution engine transition system (src/api/main.py)

One job id's view of the engine.  `job` is the job's slot in `_jobs`;
`runs` are the worker-pool tasks in flight for this id (`start` = before
`_run_pipeline`'s first lock section, `finish req` = between the two lock
sections, carrying the request read under the first).  Each lock-guarded
section of the Python code is one atomic transition; `analyze_plot` and
`regenerate` are modelled together with their immediate `_submit_pipeline`
outcome (enqueue succeeded, or rejected with the job marked failed).
Timestamps, uuids and the strings fed to the pipeline are parameters of the
transitions, standing for the nondeterministic environment. -/

inductive RunPhase where
  | start : RunPhase
  | finish : AnalyzePlotRequest → RunPhase
deriving DecidableEq, Repr

structure EngineState where
  job : Option JobRecord
  runs : List RunPhase
deriving DecidableEq, Repr

/-- `JobRecord(request=request)` with its default fields. -/
def freshJob (req : AnalyzePlotRequest) (id t : ℕ) : JobRecord :=
  { job_id := id, status := JobStatus.pending, created_at := t, updated_at := t,
    request := req, result := none, error := none }

/-- The `DesignResult` assembled by `_run_pipeline`'s try-block. -/
def runPipelineResult (req : AnalyzePlotRequest) (now designId resultId : String) :
    DesignResult :=
  let env := fetch_environmental_profile req.location now
  let decisions := execute req env
  let validation := evaluate req env decisions
  let outputs := buildOutputs req decisions validation.structural_score designId
  { design_id := resultId, files := outputs.1, summary := outputs.2,
    design_decisions := decisions, validation := validation }

/-- `_run_pipeline`'s first lock section: `job.status = running`. -/
def markRunning (j : JobRecord) (t : ℕ) : JobRecord :=
  { j with status := JobStatus.running, updated_at := t }

/-- `_run_pipeline`'s success section: store the result, mark completed. -/
def markCompleted (j : JobRecord) (r : DesignResult) (t : ℕ) : JobRecord :=
  { j with result := some r, status := JobStatus.completed, updated_at := t }

/-- The failure sections (`except` branches and `_submit_pipeline`'s
rejection handler): mark failed with a message; `result` is not cleared. -/
def markFailed (j : JobRecord) (e : String) (t : ℕ) : JobRecord :=
  { j with status := JobStatus.failed, error := some e, updated_at := t }

/-- Atomic transitions of the engine for one job id. -/
inductive Step : EngineState → EngineState → Prop where
  /-- `analyze_plot`: store a fresh pending job and enqueue a run. -/
  | createOk (req : AnalyzePlotRequest) (id t : ℕ) (rs : List RunPhase) :
      Step ⟨none, rs⟩ ⟨some (freshJob req id t), RunPhase.start :: rs⟩
  /-- `analyze_plot` whose `_submit_pipeline` hits a rejected enqueue:
  the job is marked failed and no run starts. -/
  | createRejected (req : AnalyzePlotRequest) (id t t' : ℕ) (e : String) (rs : List RunPhase) :
      Step ⟨none, rs⟩
        ⟨some (markFailed (freshJob req id t) ("Failed to enqueue job: " ++ e) t'), rs⟩
  /-- `_run_pipeline` first lock section, job vanished: worker returns. -/
  | runStartGone (rs₁ rs₂ : List RunPhase) :
      Step ⟨none, rs₁ ++ RunPhase.start :: rs₂⟩ ⟨none, rs₁ ++ rs₂⟩
  /-- `_run_pipeline` first lock section: mark running, read the request. -/
  | runStart (j : JobRecord) (t : ℕ) (rs₁ rs₂ : List RunPhase) :
      Step ⟨some j, rs₁ ++ RunPhase.start :: rs₂⟩
        ⟨some (markRunning j t), rs₁ ++ RunPhase.finish j.request :: rs₂⟩
  /-- `_run_pipeline` second lock section, job vanished: worker returns. -/
  | runFinishGone (req : AnalyzePlotRequest) (rs₁ rs₂ : List RunPhase) :
      Step ⟨none, rs₁ ++ RunPhase.finish req :: rs₂⟩ ⟨none, rs₁ ++ rs₂⟩
  /-- `_run_pipeline` success: write the result and mark completed. -/
  | runFinishOk (j : JobRecord) (req : AnalyzePlotRequest)
      (now designId resultId : String) (t : ℕ) (rs₁ rs₂ : List RunPhase) :
      Step ⟨some j, rs₁ ++ RunPhase.finish req :: rs₂⟩
        ⟨some (markCompleted j (runPipelineResult req now designId resultId) t), rs₁ ++ rs₂⟩
  /-- `_run_pipeline` except-branches: mark failed with an error message;
  the stored `result` is left untouched. -/
  | runFinishFailed (j : JobRecord) (req : AnalyzePlotRequest) (e : String) (t : ℕ)
      (rs₁ rs₂ : List RunPhase) :
      Step ⟨some j, rs₁ ++ RunPhase.finish req :: rs₂⟩
        ⟨some (markFailed j e t), rs₁ ++ rs₂⟩
  /-- `regenerate`: reset the job and enqueue a new run. -/
  | regenerateOk (j : JobRecord) (reqs : RequirementInput) (t : ℕ) (rs : List RunPhase) :
      Step ⟨some j, rs⟩ ⟨some (resetForRegenerate j reqs t), RunPhase.start :: rs⟩
  /-- `regenerate` whose `_submit_pipeline` hits a rejected enqueue. -/
  | regenerateRejected (j : JobRecord) (reqs : RequirementInput) (t t' : ℕ) (e : String)
      (rs : List RunPhase) :
      Step ⟨some j, rs⟩
        ⟨some (markFailed (resetForRegenerate j reqs t) ("Failed to enqueue job: " ++ e) t'),
         rs⟩

/-- States reachable from the empty store. -/
inductive Reach : EngineState → Prop where
  | init : Reach ⟨none, []⟩
  | step {s s' : EngineState} : Reach s → Step s s' → Reach s'

/-- The claimed job invariant: `result` set iff completed, `error` set iff
failed. -/
def statusResultInv (j : JobRecord) : Prop :=
  (j.result ≠ none ↔ j.status = JobStatus.completed) ∧
  (j.error ≠ none ↔ j.status = JobStatus.failed)

def InvariantHolds (s : EngineState) : Prop :=
  ∀ j, s.job = some j → statusResultInv j

/-- The trace refuting C2: submit; the run starts; `regenerate` resets the
job while that run is in flight; the stale run then completes, writing its
result; the regenerated run starts, leaving a `running` job with a
non-null `result`. -/
def jobRunning1 : JobRecord := markRunning (freshJob bangaloreRequest 1 0) 1

def jobReset : JobRecord := resetForRegenerate jobRunning1 newRequirements 2

def staleResult : DesignResult :=
  runPipelineResult bangaloreRequest "2024-01-01T00:00:00+00:00" "d0" "r0"

def jobStale : JobRecord := markCompleted jobReset staleResult 3

def jobViolating : JobRecord := markRunning jobStale 4

def badState : EngineState := ⟨some jobViolating, [RunPhase.finish jobStale.request]⟩

/-- C2 counterexample: a reachable state whose job is `running` yet holds a
non-null `result` — the result/status invariant does not hold over all
interleavings of the engine's operations. -/
theorem C2_counterexample_regenerate_race :
    Reach badState ∧ ¬ InvariantHolds badState := by
  constructor
  · have h1 : Reach ⟨some (freshJob bangaloreRequest 1 0), [RunPhase.start]⟩ :=
      Reach.step Reach.init (Step.createOk bangaloreRequest 1 0 [])
    have h2 : Reach ⟨some jobRunning1, [RunPhase.finish bangaloreRequest]⟩ :=
      Reach.step h1 (Step.runStart (freshJob bangaloreRequest 1 0) 1 [] [])
    have h3 : Reach ⟨some jobReset, [RunPhase.start, RunPhase.finish bangaloreRequest]⟩ :=
      Reach.step h2
        (Step.regenerateOk jobRunning1 newRequirements 2 [RunPhase.finish bangaloreRequest])
    have h4 : Reach ⟨some jobStale, [RunPhase.start]⟩ :=
      Reach.step h3
        (Step.runFinishOk jobReset bangaloreRequest "2024-01-01T00:00:00+00:00" "d0" "r0" 3
          [RunPhase.start] [])
    exact Reach.step h4 (Step.runStart jobStale 4 [] [])
  · intro hinv
    have hr : jobViolating.result ≠ none := by
      simp [jobViolating, jobStale, markRunning, markCompleted]
    have hc := (hinv jobViolating rfl).1.mp hr
    simp [jobViolating, markRunning] at hc

/-! The amended C2 restricts regenerate to quiescent moments: the guarded
system below is the same transition system except that the two regenerate
transitions fire only when no run for the job is in flight. -/

/-- Guarded transitions: regenerate only with no in-flight run. -/
inductive GStep : EngineState → EngineState → Prop where
  | createOk (req : AnalyzePlotRequest) (id t : ℕ) (rs : List RunPhase) :
      GStep ⟨none, rs⟩ ⟨some (freshJob req id t), RunPhase.start :: rs⟩
  | createRejected (req : AnalyzePlotRequest) (id t t' : ℕ) (e : String) (rs : List RunPhase) :
      GStep ⟨none, rs⟩
        ⟨some (markFailed (freshJob req id t) ("Failed to enqueue job: " ++ e) t'), rs⟩
  | runStartGone (rs₁ rs₂ : List RunPhase) :
      GStep ⟨none, rs₁ ++ RunPhase.start :: rs₂⟩ ⟨none, rs₁ ++ rs₂⟩
  | runStart (j : JobRecord) (t : ℕ) (rs₁ rs₂ : List RunPhase) :
      GStep ⟨some j, rs₁ ++ RunPhase.start :: rs₂⟩
        ⟨some (markRunning j t), rs₁ ++ RunPhase.finish j.request :: rs₂⟩
  | runFinishGone (req : AnalyzePlotRequest) (rs₁ rs₂ : List RunPhase) :
      GStep ⟨none, rs₁ ++ RunPhase.finish req :: rs₂⟩ ⟨none, rs₁ ++ rs₂⟩
  | runFinishOk (j : JobRecord) (req : AnalyzePlotRequest)
      (now designId resultId : String) (t : ℕ) (rs₁ rs₂ : List RunPhase) :
      GStep ⟨some j, rs₁ ++ RunPhase.finish req :: rs₂⟩
        ⟨some (markCompleted j (runPipelineResult req now designId resultId) t), rs₁ ++ rs₂⟩
  | runFinishFailed (j : JobRecord) (req : AnalyzePlotRequest) (e : String) (t : ℕ)
      (rs₁ rs₂ : List RunPhase) :
      GStep ⟨some j, rs₁ ++ RunPhase.finish req :: rs₂⟩
        ⟨some (markFailed j e t), rs₁ ++ rs₂⟩
  | regenerateOk (j : JobRecord) (reqs : RequirementInput) (t : ℕ) :
      GStep ⟨some j, []⟩ ⟨some (resetForRegenerate j reqs t), [RunPhase.start]⟩
  | regenerateRejected (j : JobRecord) (reqs : RequirementInput) (t t' : ℕ) (e : String) :
      GStep ⟨some j, []⟩
        ⟨some (markFailed (resetForRegenerate j reqs t) ("Failed to enqueue job: " ++ e) t'),
         []⟩

inductive GReach : EngineState → Prop where
  | init : GReach ⟨none, []⟩
  | step {s s' : EngineState} : GReach s → GStep s s' → GReach s'

/-- Inductive strengthening: the claimed invariant, at most one in-flight
run, no runs without a job, and the run phase pins the job's state. -/
def StrongInv (s : EngineState) : Prop :=
  InvariantHolds s ∧
  s.runs.length ≤ 1 ∧
  (s.job = none → s.runs = []) ∧
  ∀ j, s.job = some j →
    (RunPhase.start ∈ s.runs →
      j.status = JobStatus.pending ∧ j.result = none ∧ j.error = none) ∧
    (∀ req, RunPhase.finish req ∈ s.runs →
      j.status = JobStatus.running ∧ j.result = none ∧ j.error = none)

lemma gstep_preserves_strongInv {s s' : EngineState}
    (hs : StrongInv s) (h : GStep s s') : StrongInv s' := by
  obtain ⟨hinv, hlen, hnone, htok⟩ := hs
  cases h with
  | createOk req id t rs =>
    have hrs : rs = [] := hnone rfl
    subst hrs
    refine ⟨?_, by simp, by simp, ?_⟩
    · rintro j ⟨rfl⟩
      simp [statusResultInv, freshJob]
    · rintro j ⟨rfl⟩
      simp [freshJob]
  | createRejected req id t t' e rs =>
    have hrs : rs = [] := hnone rfl
    subst hrs
    refine ⟨?_, by simp, by simp, ?_⟩
    · rintro j ⟨rfl⟩
      simp [statusResultInv, markFailed, freshJob]
    · rintro j ⟨rfl⟩
      simp
  | runStartGone rs₁ rs₂ =>
    have : rs₁ ++ RunPhase.start :: rs₂ = [] := hnone rfl
    simp at this
  | runStart j t rs₁ rs₂ =>
    obtain ⟨h1, h2⟩ : rs₁ = [] ∧ rs₂ = [] := by
      have := hlen
      simp only [List.length_append, List.length_cons] at this
      exact ⟨List.length_eq_zero.mp (by omega), List.length_eq_zero.mp (by omega)⟩
    subst h1; subst h2
    have hj := (htok j rfl).1 (by simp)
    refine ⟨?_, by simp, by simp, ?_⟩
    · rintro j' ⟨rfl⟩
      simp [statusResultInv, markRunning, hj.2.1, hj.2.2]
    · rintro j' ⟨rfl⟩
      constructor
      · intro hmem
        simp at hmem
      · intro req hmem
        simp at hmem
        simp [markRunning, hj.2.1, hj.2.2]
  | runFinishGone req rs₁ rs₂ =>
    have : rs₁ ++ RunPhase.finish req :: rs₂ = [] := hnone rfl
    simp at this
  | runFinishOk j req now designId resultId t rs₁ rs₂ =>
    obtain ⟨h1, h2⟩ : rs₁ = [] ∧ rs₂ = [] := by
      have := hlen
      simp only [List.length_append, List.length_cons] at this
      exact ⟨List.length_eq_zero.mp (by omega), List.length_eq_zero.mp (by omega)⟩
    subst h1; subst h2
    have hj := (htok j rfl).2 req (by simp)
    refine ⟨?_, by simp, by simp, ?_⟩
    · rintro j' ⟨rfl⟩
      simp [statusResultInv, markCompleted, hj.2.2]
    · rintro j' ⟨rfl⟩
      simp
  | runFinishFailed j req e t rs₁ rs₂ =>
    obtain ⟨h1, h2⟩ : rs₁ = [] ∧ rs₂ = [] := by
      have := hlen
      simp only [List.length_append, List.length_cons] at this
      exact ⟨List.length_eq_zero.mp (by omega), List.length_eq_zero.mp (by omega)⟩
    subst h1; subst h2
    have hj := (htok j rfl).2 req (by simp)
    refine ⟨?_, by simp, by simp, ?_⟩
    · rintro j' ⟨rfl⟩
      simp [statusResultInv, markFailed, hj.2.1]
    · rintro j' ⟨rfl⟩
      simp
  | regenerateOk j reqs t =>
    refine ⟨?_, by simp, by simp, ?_⟩
    · rintro j' ⟨rfl⟩
      simp [statusResultInv, resetForRegenerate]
    · rintro j' ⟨rfl⟩
      simp [resetForRegenerate]
  | regenerateRejected j reqs t t' e =>
    refine ⟨?_, by simp, by simp, ?_⟩
    · rintro j' ⟨rfl⟩
      simp [statusResultInv, markFailed, resetForRegenerate]
    · rintro j' ⟨rfl⟩
      simp

lemma greach_strongInv {s : EngineState} (h : GReach s) : StrongInv s := by
  induction h with
  | init =>
    refine ⟨?_, by simp, by simp, ?_⟩ <;> rintro j ⟨⟩
  | step _ hstep ih => exact gstep_preserves_strongInv ih hstep

/-- C2 (amended): as long as `regenerate` is only invoked while no pipeline
run for the job is in flight, every reachable job record satisfies
`result` non-null iff completed and `error` non-null iff failed. -/
theorem C2_amended_invariant_without_regenerate_race
    (s : EngineState) (h : GReach s) : InvariantHolds s :=
  (greach_strongInv h).1

theorem C2_witness :
    InvariantHolds ⟨some (freshJob bangaloreRequest 1 0), [RunPhase.start]⟩ :=
  C2_amended_invariant_without_regenerate_race _
    (GReach.step GReach.init (GStep.createOk bangaloreRequest 1 0 []))

end SmartPlot
